import Mathlib

/-!
Verification development for the cart store, checkout state machine, order
commit protocol and notification dispatch of a Telegram shop bot (bot.py).
The database and the aiogram FSM session are modelled as explicit state and
each handler as a pure function on that state.  SQLite integers are Int,
row sets are lists in insertion order, and the aiosqlite transaction of the
order commit is a statement list with an explicit failure-injection point.
-/

set_option autoImplicit false

namespace Bot

/-- Row of the products table.  The variants field models the parsed
variants_json list, active models the INTEGER flag as Bool.  The id column
is the AUTOINCREMENT primary key and is therefore unique. -/
structure Product where
  id : Nat
  title : String
  price : Int
  description : String
  variants : List String
  active : Bool
deriving DecidableEq

/-- Row of the cart table; primary key is (user_id, product_id, variant). -/
structure CartRow where
  user_id : Nat
  product_id : Nat
  variant : String
  qty : Int
deriving DecidableEq

/-- Row of the orders table. -/
structure Order where
  id : Nat
  user_id : Nat
  username : String
  full_name : String
  phone : String
  city : String
  np_type : String
  np_point : String
  payment : String
  comment : String
  total : Int
  created_at : String
deriving DecidableEq

/-- Row of the order_items table (the surrogate id column is left out, the
list position records insertion order). -/
structure OrderItem where
  order_id : Nat
  product_id : Nat
  title : String
  variant : String
  price : Int
  qty : Int
deriving DecidableEq

/-- The whole persistent store. -/
structure DB where
  products : List Product
  cart : List CartRow
  orders : List Order
  orderItems : List OrderItem
deriving DecidableEq

/-- Lookup of a product row by id, as used by the SQL point lookups and by
the joins ON p.id = c.product_id.  Since products.id is the primary key at
most one row matches, so the first match is the match. -/
def findProduct (db : DB) (pid : Nat) : Option Product :=
  db.products.find? (fun p => p.id == pid)

/-- Row function of the cart_total query: SELECT c.qty, p.price FROM cart c
JOIN products p ON p.id=c.product_id WHERE c.user_id=? AND p.active=1.
A cart row with no matching active product contributes nothing. -/
def totalRow (db : DB) (u : Nat) (r : CartRow) : Option Int :=
  if r.user_id == u then
    match findProduct db r.product_id with
    | some p => if p.active then some (r.qty * p.price) else none
    | none => none
  else none

/-- cart_total: the sum of qty * price over the joined rows. -/
def cart_total (db : DB) (u : Nat) : Int :=
  (db.cart.filterMap (totalRow db u)).sum

/-- One row of the cart_items result set. -/
structure ItemRow where
  product_id : Nat
  title : String
  price : Int
  qty : Int
  variant : String
deriving DecidableEq

/-- Row function of the cart_items query: the join of a cart row with its
currently active product. -/
def itemRow (db : DB) (u : Nat) (r : CartRow) : Option ItemRow :=
  if r.user_id == u then
    match findProduct db r.product_id with
    | some p => if p.active then some ⟨r.product_id, p.title, p.price, r.qty, r.variant⟩ else none
    | none => none
  else none

/-- Insertion step of the ORDER BY p.id DESC sort. -/
def insertDescByPid (x : ItemRow) : List ItemRow → List ItemRow
  | [] => [x]
  | y :: ys => if y.product_id < x.product_id then x :: y :: ys else y :: insertDescByPid x ys

/-- ORDER BY p.id DESC as an insertion sort, descending by product id (the
order among rows with equal product id is not fixed by the query). -/
def sortDescByPid (l : List ItemRow) : List ItemRow :=
  l.foldr insertDescByPid []

/-- cart_items: SELECT c.product_id, p.title, p.price, c.qty, c.variant FROM
cart c JOIN products p ON p.id=c.product_id WHERE c.user_id=? AND p.active=1
ORDER BY p.id DESC. -/
def cart_items (db : DB) (u : Nat) : List ItemRow :=
  sortDescByPid (db.cart.filterMap (itemRow db u))

/-- The WHERE clause user_id=? AND product_id=? AND variant=? of the cart
mutations. -/
def keyMatch (u pid : Nat) (v : String) (r : CartRow) : Bool :=
  r.user_id == u && r.product_id == pid && r.variant == v

/-- INSERT INTO cart(user_id, product_id, variant, qty) VALUES(?,?,?,1)
ON CONFLICT(user_id, product_id, variant) DO UPDATE SET qty=qty+1. -/
def cart_upsert (db : DB) (u pid : Nat) (v : String) : DB :=
  if db.cart.any (keyMatch u pid v) then
    { db with cart := db.cart.map (fun r => if keyMatch u pid v r then { r with qty := r.qty + 1 } else r) }
  else
    { db with cart := db.cart ++ [⟨u, pid, v, 1⟩] }

/-- Replies surfaced by the modelled handlers. -/
inductive Reply where
  | notFound
  | chooseVariant
  | added
  | cartEmptyAlert
  | promptName
  | promptPhone
  | badPhone
  | promptCity
  | promptNpType
  | promptNpPoint
  | promptPayment
  | promptComment
  | preview (items : List ItemRow) (total : Int)
  | cancelled
  | orderDone (oid : Nat)
  | ignored
deriving DecidableEq

/-- The cart:add handler.  It first loads the product WHERE id=? AND
active=1; when no row comes back (nonexistent or inactive product) it
answers with a not-found alert and writes nothing.  A product with variants
gets a variant keyboard instead of a write; only a variant-free product is
upserted with the empty variant. -/
def cart_add (db : DB) (u pid : Nat) : DB × Reply :=
  match db.products.find? (fun p => p.id == pid && p.active) with
  | none => (db, Reply.notFound)
  | some p =>
    if p.variants.isEmpty then (cart_upsert db u pid "", Reply.added)
    else (db, Reply.chooseVariant)

/-- The cart:addv handler: an unconditional upsert, with no product lookup
on the write path. -/
def cart_add_variant (db : DB) (u pid : Nat) (v : String) : DB × Reply :=
  (cart_upsert db u pid v, Reply.added)

/-- The cart:inc handler: UPDATE cart SET qty=qty+1 WHERE user_id=? AND
product_id=? AND variant=?; a missing row makes this a no-op. -/
def cart_inc (db : DB) (u pid : Nat) (v : String) : DB :=
  { db with cart := db.cart.map (fun r => if keyMatch u pid v r then { r with qty := r.qty + 1 } else r) }

/-- The cart:dec handler: it first fetches the qty of the row; a missing row
is a no-op, qty at most 1 deletes the row, otherwise UPDATE SET qty=qty-1. -/
def cart_dec (db : DB) (u pid : Nat) (v : String) : DB :=
  match db.cart.find? (keyMatch u pid v) with
  | none => db
  | some row =>
    if row.qty ≤ 1 then
      { db with cart := db.cart.filter (fun r => !(keyMatch u pid v r)) }
    else
      { db with cart := db.cart.map (fun r => if keyMatch u pid v r then { r with qty := r.qty - 1 } else r) }

/-- The cart:del handler: DELETE FROM cart WHERE user_id=? AND product_id=?
AND variant=?. -/
def cart_del (db : DB) (u pid : Nat) (v : String) : DB :=
  { db with cart := db.cart.filter (fun r => !(keyMatch u pid v r)) }

/-- The cart:clear handler: DELETE FROM cart WHERE user_id=?. -/
def cart_clear (db : DB) (u : Nat) : DB :=
  { db with cart := db.cart.filter (fun r => !(r.user_id == u)) }

/-- The admin:toggle handler: fetch active WHERE id=?, answer not-found when
absent, else set active to 0 when it was 1 and to 1 otherwise. -/
def admin_toggle (db : DB) (pid : Nat) : DB :=
  match findProduct db pid with
  | none => db
  | some row =>
    { db with products := db.products.map (fun p => if p.id == pid then { p with active := !row.active } else p) }

/-- DELETE FROM products WHERE id=? with the cart cascade made explicit: the
cart table declares FOREIGN KEY(product_id) REFERENCES products(id) ON
DELETE CASCADE, and SQLite runs that cascade only on a connection where
PRAGMA foreign_keys is on. -/
def deleteProduct (db : DB) (pid : Nat) (fkOn : Bool) : DB :=
  { db with
    products := db.products.filter (fun p => !(p.id == pid)),
    cart := if fkOn then db.cart.filter (fun r => !(r.product_id == pid)) else db.cart }

/-- The admin:del handler runs its DELETE through db_execute, which opens a
fresh aiosqlite connection for the single statement.  SQLite keeps foreign
key enforcement off by default on every new connection, and db_init issues
PRAGMA foreign_keys = ON only on its own initialisation connection, so the
connection used here has it off and the declared cascade does not run. -/
def admin_del (db : DB) (pid : Nat) : DB :=
  deleteProduct db pid false

/-- Steps of the Checkout states group. -/
inductive Step where
  | full_name
  | phone
  | city
  | np_type
  | np_point
  | payment
  | comment
  | confirm
deriving DecidableEq

/-- The FSM data dict of a checkout session; a key never written is the
empty string. -/
structure SessionData where
  full_name : String
  phone : String
  city : String
  np_type : String
  np_point : String
  payment : String
  comment : String
deriving DecidableEq

def emptyData : SessionData := ⟨"", "", "", "", "", "", ""⟩

/-- The aiogram FSM context of one user: current state plus data dict; step
none is the cleared context. -/
structure Session where
  step : Option Step
  data : SessionData
deriving DecidableEq

def clearedSession : Session := ⟨none, emptyData⟩

/-- ASCII model of the Python str.strip() whitespace test. -/
def isSpaceChar (c : Char) : Bool :=
  c == ' ' || c == '\t' || c == '\n' || c == '\r'

/-- Model of str.strip(): drop whitespace from both ends. -/
def strTrim (s : String) : String :=
  String.mk (((s.data.dropWhile isSpaceChar).reverse.dropWhile isSpaceChar).reverse)

/-- Model of str.split with separator ":", as used on callback data. -/
def splitColonAux (cs : List Char) : List (List Char) :=
  match cs with
  | [] => [[]]
  | a :: as =>
    if a == ':' then [] :: splitColonAux as
    else
      match splitColonAux as with
      | [] => [[a]]
      | g :: gs => (a :: g) :: gs

def splitColon (s : String) : List String :=
  (splitColonAux s.data).map String.mk

/-- Model of str.startswith. -/
def strStartsWith (s p : String) : Bool :=
  p.data.isPrefixOf s.data

/-- Model of re.sub removing every character other than a digit or a plus
sign (the Python pattern also admits non-ASCII decimal digits; the model
reads digit as the ASCII decimal digits the inputs use). -/
def stripPhone (t : String) : String :=
  String.mk (t.data.filter (fun ch => ch.isDigit || ch == '+'))

/-- The count of digits of a string, as in the length of re.sub stripping
every non-digit. -/
def digitCount (t : String) : Nat :=
  (t.data.filter Char.isDigit).length

/-- The co_full_name message handler. -/
def co_full_name (s : Session) (text : String) : Session × Reply :=
  (⟨some Step.phone, { s.data with full_name := strTrim text }⟩, Reply.promptPhone)

/-- The co_phone message handler: phone is the stripped text; when fewer
than 9 digits remain the error is answered and neither the state nor the
data change; otherwise the phone is stored and the state advances to city. -/
def co_phone (s : Session) (text : String) : Session × Reply :=
  let phone := stripPhone (strTrim text)
  if digitCount phone < 9 then (s, Reply.badPhone)
  else (⟨some Step.city, { s.data with phone := phone }⟩, Reply.promptCity)

/-- The co_city message handler. -/
def co_city (s : Session) (text : String) : Session × Reply :=
  (⟨some Step.np_type, { s.data with city := strTrim text }⟩, Reply.promptNpType)

/-- The co_np_type callback handler: stores the third colon-separated field
of the callback data and advances to np_point. -/
def co_np_type (s : Session) (dataStr : String) : Session × Reply :=
  let t := (splitColon dataStr).getD 2 ""
  (⟨some Step.np_point, { s.data with np_type := t }⟩, Reply.promptNpPoint)

/-- The co_np_point message handler. -/
def co_np_point (s : Session) (text : String) : Session × Reply :=
  (⟨some Step.payment, { s.data with np_point := strTrim text }⟩, Reply.promptPayment)

/-- The co_payment callback handler: the second colon-separated field cod
maps to the cash-on-delivery label and every other field to the prepay
label. -/
def co_payment (s : Session) (dataStr : String) : Session × Reply :=
  let p := (splitColon dataStr).getD 1 ""
  let pay := if p = "cod" then "Накладений платіж" else "Передоплата"
  (⟨some Step.comment, { s.data with payment := pay }⟩, Reply.promptComment)

/-- The co_comment message handler: stores the comment, re-reads the live
cart for the preview and moves to confirm. -/
def co_comment (db : DB) (s : Session) (u : Nat) (text : String) : Session × Reply :=
  (⟨some Step.confirm, { s.data with comment := strTrim text }⟩,
   Reply.preview (cart_items db u) (cart_total db u))

/-- The checkout:cancel callback handler: state.clear and a cancel reply. -/
def checkout_cancel (_s : Session) : Session × Reply :=
  (clearedSession, Reply.cancelled)

/-- Dispatch of a free-text message while a checkout session is active:
aiogram routes it to the message handler registered for the current FSM
state; the np_type, payment and confirm steps register no message handler,
so there the message falls through with the session untouched. -/
def checkoutMessage (db : DB) (s : Session) (u : Nat) (text : String) : Session × Reply :=
  match s.step with
  | some Step.full_name => co_full_name s text
  | some Step.phone => co_phone s text
  | some Step.city => co_city s text
  | some Step.np_point => co_np_point s text
  | some Step.comment => co_comment db s u text
  | _ => (s, Reply.ignored)

/-- Statements of the order commit transaction. -/
inductive Stmt where
  | insertOrder (o : Order)
  | insertItem (it : OrderItem)
  | deleteCartUser (u : Nat)
deriving DecidableEq

def applyStmt (db : DB) : Stmt → DB
  | Stmt.insertOrder o => { db with orders := db.orders ++ [o] }
  | Stmt.insertItem it => { db with orderItems := db.orderItems ++ [it] }
  | Stmt.deleteCartUser u => { db with cart := db.cart.filter (fun r => !(r.user_id == u)) }

/-- One aiosqlite connection executes the statements and commits once after
the last one.  When the statement at index failAt raises, the exception
leaves the with block, the connection closes without a commit and SQLite
rolls the open transaction back, so the visible state is the original
one. -/
def runTxn (db : DB) (stmts : List Stmt) (failAt : Option Nat) : DB :=
  match failAt with
  | none => stmts.foldl applyStmt db
  | some _ => db

/-- The AUTOINCREMENT id handed back as lastrowid for the new order. -/
def nextOrderId (db : DB) : Nat :=
  (db.orders.map Order.id).foldl max 0 + 1

/-- The delivery-type display text: branch maps to the branch label and
everything else to the locker label. -/
def npTypeText (t : String) : String :=
  if t = "branch" then "Відділення" else "Поштомат"

def mkOrder (oid u : Nat) (username : String) (d : SessionData) (total : Int)
    (created : String) : Order :=
  ⟨oid, u, username, d.full_name, d.phone, d.city, npTypeText d.np_type,
   d.np_point, d.payment, d.comment, total, created⟩

def mkOrderItem (oid : Nat) (it : ItemRow) : OrderItem :=
  ⟨oid, it.product_id, it.title, it.variant, it.price, it.qty⟩

/-- The notification loop after the commit: walk ADMIN_IDS in order, skip
falsy and zero ids, send and stop at the first identity that accepts; each
failed send is only logged.  When nobody accepted, fall back to sending to
the originating chat, whose failure is again only logged. -/
def notifyResult (adminIds : List Int) (sendOk : Int → Bool) (chatId : Int) : Option Int :=
  match adminIds.find? (fun a => !(a == 0) && sendOk a) with
  | some a => some a
  | none => if sendOk chatId then some chatId else none

/-- Everything a handler leaves behind: database, FSM session, the replies
shown to the user and the identity that received the order notification. -/
structure HandlerResult where
  db : DB
  session : Session
  replies : List Reply
  notified : Option Int
deriving DecidableEq

/-- The checkout:confirm handler.  It re-reads the live cart (items and
total), aborts with an alert when the active-product snapshot is empty, and
otherwise runs one transaction holding the order insert, one order_items
insert per snapshot row copying title, variant and price, and the blanket
cart delete of the user; then it clears the FSM state, dispatches the
notification and answers with the order number.  An injected persistence
failure propagates out before the final commit: the transaction rolls back
and nothing after the with block runs. -/
def checkout_confirm (db : DB) (s : Session) (u : Nat) (username : String)
    (chatId : Int) (created : String) (adminIds : List Int) (sendOk : Int → Bool)
    (failAt : Option Nat) : HandlerResult :=
  let items := cart_items db u
  let total := cart_total db u
  if items = [] then ⟨db, s, [Reply.cartEmptyAlert], none⟩
  else
    let oid := nextOrderId db
    let o := mkOrder oid u username s.data total created
    let stmts := Stmt.insertOrder o ::
      items.map (fun it => Stmt.insertItem (mkOrderItem oid it)) ++ [Stmt.deleteCartUser u]
    let dbA := runTxn db stmts failAt
    match failAt with
    | some _ => ⟨dbA, s, [], none⟩
    | none => ⟨dbA, clearedSession, [Reply.orderDone oid], notifyResult adminIds sendOk chatId⟩

/-- Dispatch of a callback query for the checkout flow, in the registration
order of its handlers.  checkout:start carries no state filter; the np:type
and pay handlers are gated on the FSM state and a data prefix test; cancel
and confirm are gated on the confirm state.  Callback data handled by the
catalog, cart and info routes never touches the FSM session, so it is
subsumed by the final unchanged case (the admin product-creation route,
which does reset state for admin users, is outside this checkout model). -/
def checkoutCallback (db : DB) (s : Session) (u : Nat) (username : String)
    (chatId : Int) (created : String) (adminIds : List Int) (sendOk : Int → Bool)
    (failAt : Option Nat) (dataStr : String) : HandlerResult :=
  if dataStr = "checkout:start" then
    if cart_items db u = [] then ⟨db, s, [Reply.cartEmptyAlert], none⟩
    else ⟨db, ⟨some Step.full_name, emptyData⟩, [Reply.promptName], none⟩
  else if s.step = some Step.np_type ∧ strStartsWith dataStr "np:type:" = true then
    let r := co_np_type s dataStr
    ⟨db, r.1, [r.2], none⟩
  else if s.step = some Step.payment ∧ strStartsWith dataStr "pay:" = true then
    let r := co_payment s dataStr
    ⟨db, r.1, [r.2], none⟩
  else if s.step = some Step.confirm ∧ dataStr = "checkout:cancel" then
    let r := checkout_cancel s
    ⟨db, r.1, [r.2], none⟩
  else if s.step = some Step.confirm ∧ dataStr = "checkout:confirm" then
    checkout_confirm db s u username chatId created adminIds sendOk failAt
  else ⟨db, s, [Reply.ignored], none⟩

/-- One increment or decrement on a fixed cart key. -/
inductive CartOp where
  | inc
  | dec
deriving DecidableEq

def applyCartOp (u pid : Nat) (v : String) (db : DB) : CartOp → DB
  | CartOp.inc => cart_inc db u pid v
  | CartOp.dec => cart_dec db u pid v

def applyCartOps (u pid : Nat) (v : String) (db : DB) (ops : List CartOp) : DB :=
  ops.foldl (applyCartOp u pid v) db

/-- The stored quantity of one cart key, none when the row is absent. -/
def cart_qty (db : DB) (u pid : Nat) (v : String) : Option Int :=
  (db.cart.find? (keyMatch u pid v)).map CartRow.qty

def isInc : CartOp → Bool
  | CartOp.inc => true
  | CartOp.dec => false

def incCount (ops : List CartOp) : Nat := (ops.filter isInc).length

def decCount (ops : List CartOp) : Nat := (ops.filter (fun o => !(isInc o))).length

/-- Every persisted cart quantity is at least 1. -/
def QtyPos (db : DB) : Prop := ∀ r ∈ db.cart, 1 ≤ r.qty

/-- The cart primary key (user_id, product_id, variant): no two rows share
the key. -/
def KeysNodup (db : DB) : Prop :=
  db.cart.Pairwise (fun a b =>
    ¬(a.user_id = b.user_id ∧ a.product_id = b.product_id ∧ a.variant = b.variant))

/-- The products primary key: the ids are distinct. -/
def ProductsNodup (db : DB) : Prop :=
  db.products.Pairwise (fun a b => a.id ≠ b.id)

/-- Whether the product of a cart row is present and active. -/
def productActive (db : DB) (pid : Nat) : Bool :=
  match findProduct db pid with
  | some p => p.active
  | none => false

/-- The current unit price of a product, 0 when absent. -/
def productPrice (db : DB) (pid : Nat) : Int :=
  match findProduct db pid with
  | some p => p.price
  | none => 0

/-- The contribution of product pid to the cart total of user u at the
given unit price. -/
def pidContrib (db : DB) (u pid : Nat) (price : Int) : Int :=
  ((db.cart.filter (fun r => r.user_id == u && r.product_id == pid)).map
    (fun r => r.qty * price)).sum

/-- Fixtures used by the concrete witnesses below. -/
def okNone : Int → Bool := fun _ => false

def okOnly5 : Int → Bool := fun a => a == 5

def dbE : DB := ⟨[], [], [], []⟩

def db1 : DB := ⟨[⟨1, "A", 100, "", [], true⟩], [⟨7, 1, "", 2⟩], [], []⟩

def s1 : Session := ⟨some Step.confirm, ⟨"n", "0981234567", "Kyiv", "branch", "12", "Передоплата", "-"⟩⟩

/-! Generic list lemmas used by the proofs. -/

theorem find?_map_inv {α : Type} (f : α → α) (p : α → Bool) (hp : ∀ a, p (f a) = p a)
    (l : List α) : (l.map f).find? p = (l.find? p).map f := by
  induction l with
  | nil => rfl
  | cons a as ih =>
    simp only [List.map_cons, List.find?_cons, hp a]
    cases h : p a
    · simpa using ih
    · rfl

theorem find?_filter_not {α : Type} (p : α → Bool) (l : List α) :
    (l.filter (fun a => !(p a))).find? p = none := by
  rw [List.find?_eq_none]
  intro x hx
  have h := (List.mem_filter.mp hx).2
  simp only [Bool.not_eq_true'] at h
  simp [h]

theorem find?_append_first {α : Type} (p : α → Bool) (l1 l2 : List α) (a : α)
    (h1 : ∀ b ∈ l1, p b = false) (h2 : p a = true) :
    (l1 ++ a :: l2).find? p = some a := by
  induction l1 with
  | nil => simp [List.find?_cons, h2]
  | cons b bs ih =>
    have hb : p b = false := h1 b (by simp)
    simp only [List.cons_append, List.find?_cons, hb, cond_false]
    exact ih (fun x hx => h1 x (by simp [hx]))

theorem map_id_of_mem {α : Type} (l : List α) (f : α → α) (h : ∀ x ∈ l, f x = x) :
    l.map f = l := by
  induction l with
  | nil => rfl
  | cons a as ih =>
    rw [List.map_cons, h a (by simp), ih (fun x hx => h x (by simp [hx]))]

/-! Lemmas about the cart quantity of one key under increments and
decrements. -/

theorem keyMatch_setQty (u pid : Nat) (v : String) (q : Int) (r : CartRow) :
    keyMatch u pid v { r with qty := q } = keyMatch u pid v r := rfl

theorem keyMatch_condSetQty (u pid : Nat) (v : String) (g : Int → Int) (r : CartRow) :
    keyMatch u pid v (if keyMatch u pid v r then { r with qty := g r.qty } else r)
      = keyMatch u pid v r := by
  cases h : keyMatch u pid v r
  · simp [h]
  · simp [h, keyMatch_setQty, h]

theorem cart_qty_inc (db : DB) (u pid : Nat) (v : String) :
    cart_qty (cart_inc db u pid v) u pid v = (cart_qty db u pid v).map (fun q => q + 1) := by
  unfold cart_qty cart_inc
  rw [show ({ db with cart := db.cart.map (fun r => if keyMatch u pid v r then { r with qty := r.qty + 1 } else r) } : DB).cart
        = db.cart.map (fun r => if keyMatch u pid v r then { r with qty := r.qty + 1 } else r) from rfl]
  rw [find?_map_inv _ _ (keyMatch_condSetQty u pid v (fun q => q + 1))]
  cases h : db.cart.find? (keyMatch u pid v) with
  | none => rfl
  | some r =>
    have hr : keyMatch u pid v r = true := List.find?_some h
    simp [hr]

theorem cart_dec_noop (db : DB) (u pid : Nat) (v : String)
    (h : cart_qty db u pid v = none) : cart_dec db u pid v = db := by
  have hf : db.cart.find? (keyMatch u pid v) = none := by
    cases hf : db.cart.find? (keyMatch u pid v)
    · rfl
    · rw [cart_qty, hf] at h
      cases h
  unfold cart_dec
  rw [hf]

theorem cart_qty_dec (db : DB) (u pid : Nat) (v : String) :
    cart_qty (cart_dec db u pid v) u pid v =
      match cart_qty db u pid v with
      | none => none
      | some q => if q ≤ 1 then none else some (q - 1) := by
  cases h : db.cart.find? (keyMatch u pid v) with
  | none =>
    simp only [cart_dec, cart_qty, h]
    rfl
  | some r =>
    have hr : keyMatch u pid v r = true := List.find?_some h
    by_cases hle : r.qty ≤ 1
    · simp only [cart_dec, cart_qty, h, if_pos hle]
      rw [find?_filter_not]
      simp [hle]
    · simp only [cart_dec, cart_qty, h, if_neg hle]
      rw [find?_map_inv _ _ (keyMatch_condSetQty u pid v (fun q => q - 1)), h]
      simp [hr, hle]

theorem keys_unique {u pid : Nat} {v : String} {l : List CartRow}
    (hnd : l.Pairwise (fun a b =>
      ¬(a.user_id = b.user_id ∧ a.product_id = b.product_id ∧ a.variant = b.variant)))
    {r1 r2 : CartRow} (h1 : r1 ∈ l) (h2 : r2 ∈ l)
    (k1 : keyMatch u pid v r1 = true) (k2 : keyMatch u pid v r2 = true) : r1 = r2 := by
  have f1 : r1.user_id = u ∧ r1.product_id = pid ∧ r1.variant = v := by
    simpa [keyMatch, and_assoc] using k1
  have f2 : r2.user_id = u ∧ r2.product_id = pid ∧ r2.variant = v := by
    simpa [keyMatch, and_assoc] using k2
  induction l with
  | nil => cases h1
  | cons a as ih =>
    rw [List.pairwise_cons] at hnd
    rcases List.mem_cons.mp h1 with h1a | h1m
    · rcases List.mem_cons.mp h2 with h2a | h2m
      · rw [h1a, h2a]
      · exfalso
        apply hnd.1 r2 h2m
        subst h1a
        exact ⟨f1.1.trans f2.1.symm, f1.2.1.trans f2.2.1.symm, f1.2.2.trans f2.2.2.symm⟩
    · rcases List.mem_cons.mp h2 with h2a | h2m
      · exfalso
        apply hnd.1 r1 h1m
        subst h2a
        exact ⟨f2.1.trans f1.1.symm, f2.2.1.trans f1.2.1.symm, f2.2.2.trans f1.2.2.symm⟩
      · exact ih hnd.2 h1m h2m

theorem condSetQty_key (u pid : Nat) (v : String) (g : Int → Int) (a : CartRow) :
    ((if keyMatch u pid v a then { a with qty := g a.qty } else a).user_id = a.user_id)
  ∧ ((if keyMatch u pid v a then { a with qty := g a.qty } else a).product_id = a.product_id)
  ∧ ((if keyMatch u pid v a then { a with qty := g a.qty } else a).variant = a.variant) := by
  by_cases h : keyMatch u pid v a = true <;> simp [h]

theorem keysNodup_map_condSetQty (u pid : Nat) (v : String) (g : Int → Int) (db : DB)
    (hK : KeysNodup db) :
    (db.cart.map (fun r => if keyMatch u pid v r then { r with qty := g r.qty } else r)).Pairwise
      (fun a b => ¬(a.user_id = b.user_id ∧ a.product_id = b.product_id ∧ a.variant = b.variant)) := by
  refine List.Pairwise.map _ (fun a b hab => ?_) hK
  have ka := condSetQty_key u pid v g a
  have kb := condSetQty_key u pid v g b
  rw [ka.1, ka.2.1, ka.2.2, kb.1, kb.2.1, kb.2.2]
  exact hab

theorem inv_inc (db : DB) (u pid : Nat) (v : String) (hK : KeysNodup db) (hQ : QtyPos db) :
    KeysNodup (cart_inc db u pid v) ∧ QtyPos (cart_inc db u pid v) := by
  constructor
  · exact keysNodup_map_condSetQty u pid v (fun q => q + 1) db hK
  · intro r hr
    simp only [cart_inc, List.mem_map] at hr
    obtain ⟨s, hs, hsr⟩ := hr
    have hq := hQ s hs
    by_cases hk : keyMatch u pid v s = true
    · rw [if_pos hk] at hsr
      rw [← hsr]
      simp only []
      omega
    · rw [if_neg hk] at hsr
      rw [← hsr]
      exact hq

theorem inv_dec (db : DB) (u pid : Nat) (v : String) (hK : KeysNodup db) (hQ : QtyPos db) :
    KeysNodup (cart_dec db u pid v) ∧ QtyPos (cart_dec db u pid v) := by
  cases h : db.cart.find? (keyMatch u pid v) with
  | none =>
    simp only [cart_dec, h]
    exact ⟨hK, hQ⟩
  | some row =>
    have hrowmem : row ∈ db.cart := List.mem_of_find?_eq_some h
    have hrowkey : keyMatch u pid v row = true := List.find?_some h
    by_cases hle : row.qty ≤ 1
    · simp only [cart_dec, h, if_pos hle]
      constructor
      · exact List.Pairwise.sublist (List.filter_sublist db.cart) hK
      · intro r hr
        exact hQ r (List.mem_of_mem_filter hr)
    · simp only [cart_dec, h, if_neg hle]
      constructor
      · exact keysNodup_map_condSetQty u pid v (fun q => q - 1) db hK
      · intro r hr
        simp only [List.mem_map] at hr
        obtain ⟨s, hs, hsr⟩ := hr
        by_cases hk : keyMatch u pid v s = true
        · have hseq : s = row := keys_unique hK hs hrowmem hk hrowkey
          subst hseq
          rw [if_pos hk] at hsr
          rw [← hsr]
          simp only []
          omega
        · rw [if_neg hk] at hsr
          rw [← hsr]
          exact hQ s hs

theorem inv_step (u pid : Nat) (v : String) (db : DB) (op : CartOp)
    (hK : KeysNodup db) (hQ : QtyPos db) :
    KeysNodup (applyCartOp u pid v db op) ∧ QtyPos (applyCartOp u pid v db op) := by
  cases op
  · exact inv_inc db u pid v hK hQ
  · exact inv_dec db u pid v hK hQ

theorem inv_ops (u pid : Nat) (v : String) (ops : List CartOp) : ∀ db : DB,
    KeysNodup db → QtyPos db →
    KeysNodup (applyCartOps u pid v db ops) ∧ QtyPos (applyCartOps u pid v db ops) := by
  induction ops with
  | nil => exact fun db hK hQ => ⟨hK, hQ⟩
  | cons op rest ih =>
    intro db hK hQ
    have h := inv_step u pid v db op hK hQ
    exact ih _ h.1 h.2

theorem qty_none_ops (u pid : Nat) (v : String) (ops : List CartOp) : ∀ db : DB,
    cart_qty db u pid v = none →
    cart_qty (applyCartOps u pid v db ops) u pid v = none := by
  induction ops with
  | nil => exact fun db h => h
  | cons op rest ih =>
    intro db h
    apply ih
    cases op
    · rw [show applyCartOp u pid v db CartOp.inc = cart_inc db u pid v from rfl,
          cart_qty_inc, h]
      rfl
    · rw [show applyCartOp u pid v db CartOp.dec = cart_dec db u pid v from rfl,
          cart_dec_noop db u pid v h]
      exact h

theorem incCount_cons_inc (rest : List CartOp) :
    incCount (CartOp.inc :: rest) = incCount rest + 1 := by
  simp [incCount, List.filter_cons, isInc]

theorem incCount_cons_dec (rest : List CartOp) :
    incCount (CartOp.dec :: rest) = incCount rest := by
  simp [incCount, List.filter_cons, isInc]

theorem decCount_cons_inc (rest : List CartOp) :
    decCount (CartOp.inc :: rest) = decCount rest := by
  simp [decCount, List.filter_cons, isInc]

theorem decCount_cons_dec (rest : List CartOp) :
    decCount (CartOp.dec :: rest) = decCount rest + 1 := by
  simp [decCount, List.filter_cons, isInc]

theorem qty_count_ops (u pid : Nat) (v : String) (ops : List CartOp) : ∀ (db : DB) (q q2 : Int),
    cart_qty db u pid v = some q →
    cart_qty (applyCartOps u pid v db ops) u pid v = some q2 →
    q2 = q + (incCount ops : Int) - (decCount ops : Int) := by
  induction ops with
  | nil =>
    intro db q q2 h1 h2
    rw [show applyCartOps u pid v db [] = db from rfl, h1] at h2
    cases h2
    simp [incCount, decCount]
  | cons op rest ih =>
    intro db q q2 h1 h2
    cases op
    · have hstep : cart_qty (cart_inc db u pid v) u pid v = some (q + 1) := by
        rw [cart_qty_inc, h1]
        rfl
      have hrest : cart_qty (applyCartOps u pid v (cart_inc db u pid v) rest) u pid v = some q2 := h2
      have := ih (cart_inc db u pid v) (q + 1) q2 hstep hrest
      rw [incCount_cons_inc, decCount_cons_inc]
      push_cast
      omega
    · by_cases hle : q ≤ 1
      · have hstep : cart_qty (cart_dec db u pid v) u pid v = none := by
          rw [cart_qty_dec, h1]
          simp [hle]
        have : cart_qty (applyCartOps u pid v (cart_dec db u pid v) rest) u pid v = none :=
          qty_none_ops u pid v rest _ hstep
        have h2r : cart_qty (applyCartOps u pid v (cart_dec db u pid v) rest) u pid v = some q2 := h2
        rw [this] at h2r
        cases h2r
      · have hstep : cart_qty (cart_dec db u pid v) u pid v = some (q - 1) := by
          rw [cart_qty_dec, h1]
          simp [hle]
        have hrest : cart_qty (applyCartOps u pid v (cart_dec db u pid v) rest) u pid v = some q2 := h2
        have := ih (cart_dec db u pid v) (q - 1) q2 hstep hrest
        rw [incCount_cons_dec, decCount_cons_dec]
        push_cast
        omega

/-! Lemmas about the commit transaction statement list. -/

theorem foldl_insertItems (f : ItemRow → OrderItem) (items : List ItemRow) : ∀ db : DB,
    (items.map (fun it => Stmt.insertItem (f it))).foldl applyStmt db =
      { db with orderItems := db.orderItems ++ items.map f } := by
  induction items with
  | nil => intro db; simp
  | cons it rest ih =>
    intro db
    rw [List.map_cons, List.foldl_cons, ih]
    simp [applyStmt]

theorem commit_fold (db : DB) (o : Order) (oid : Nat) (items : List ItemRow) (u : Nat) :
    (Stmt.insertOrder o :: items.map (fun it => Stmt.insertItem (mkOrderItem oid it)) ++
        [Stmt.deleteCartUser u]).foldl applyStmt db =
      { db with orders := db.orders ++ [o],
                orderItems := db.orderItems ++ items.map (mkOrderItem oid),
                cart := db.cart.filter (fun r => !(r.user_id == u)) } := by
  simp only [List.foldl_append, List.foldl_cons, List.foldl_nil, foldl_insertItems]
  simp [applyStmt]

theorem checkout_confirm_success (db : DB) (s : Session) (u : Nat) (username : String)
    (chatId : Int) (created : String) (adminIds : List Int) (sendOk : Int → Bool)
    (hne : cart_items db u ≠ []) :
    checkout_confirm db s u username chatId created adminIds sendOk none =
      ⟨{ db with
            orders := db.orders ++ [mkOrder (nextOrderId db) u username s.data (cart_total db u) created],
            orderItems := db.orderItems ++ (cart_items db u).map (mkOrderItem (nextOrderId db)),
            cart := db.cart.filter (fun r => !(r.user_id == u)) },
        clearedSession, [Reply.orderDone (nextOrderId db)],
        notifyResult adminIds sendOk chatId⟩ := by
  simp only [checkout_confirm]
  rw [if_neg hne]
  simp only [runTxn, commit_fold]

theorem checkout_confirm_fail (db : DB) (s : Session) (u : Nat) (username : String)
    (chatId : Int) (created : String) (adminIds : List Int) (sendOk : Int → Bool)
    (k : Nat) (hne : cart_items db u ≠ []) :
    checkout_confirm db s u username chatId created adminIds sendOk (some k) =
      ⟨db, s, [], none⟩ := by
  simp only [checkout_confirm]
  rw [if_neg hne]
  rfl

theorem checkout_confirm_empty (db : DB) (s : Session) (u : Nat) (username : String)
    (chatId : Int) (created : String) (adminIds : List Int) (sendOk : Int → Bool)
    (failAt : Option Nat) (hempty : cart_items db u = []) :
    checkout_confirm db s u username chatId created adminIds sendOk failAt =
      ⟨db, s, [Reply.cartEmptyAlert], none⟩ := by
  simp only [checkout_confirm]
  rw [if_pos hempty]

theorem cancel_dispatch (db : DB) (s : Session) (u : Nat) (username : String)
    (chatId : Int) (created : String) (adminIds : List Int) (sendOk : Int → Bool)
    (failAt : Option Nat) (hs : s.step = some Step.confirm) :
    checkoutCallback db s u username chatId created adminIds sendOk failAt "checkout:cancel" =
      ⟨db, clearedSession, [Reply.cancelled], none⟩ := by
  unfold checkoutCallback
  rw [if_neg (by decide : ¬("checkout:cancel" = "checkout:start"))]
  rw [if_neg (fun h => by rw [hs] at h; exact absurd h.1 (by decide))]
  rw [if_neg (fun h => by rw [hs] at h; exact absurd h.1 (by decide))]
  rw [if_pos ⟨hs, rfl⟩]
  rfl

/-- Claim C1: pressing confirm in the AwaitingConfirmation step with a
non-empty active-product cart commits atomically: on success the Order row
(with the total recomputed from the live cart), one OrderItem per
snapshotted cart entry copying title, price and variant, and the clearing
of the cart rows of the user all persist; a persistence failure injected at
any statement of the transaction, in particular right after the order
insert, rolls everything back, leaving the orders, order items and the cart
exactly as before. -/
theorem c1_commit_atomic (db : DB) (s : Session) (u : Nat) (username : String)
    (chatId : Int) (created : String) (adminIds : List Int) (sendOk : Int → Bool)
    (hs : s.step = some Step.confirm) (hne : cart_items db u ≠ []) :
    (∀ k : Nat,
      (checkout_confirm db s u username chatId created adminIds sendOk (some k)).db = db
      ∧ (checkout_confirm db s u username chatId created adminIds sendOk (some k)).db.orders = db.orders
      ∧ (checkout_confirm db s u username chatId created adminIds sendOk (some k)).db.cart = db.cart)
  ∧ (checkout_confirm db s u username chatId created adminIds sendOk none).db.orders
      = db.orders ++ [mkOrder (nextOrderId db) u username s.data (cart_total db u) created]
  ∧ (checkout_confirm db s u username chatId created adminIds sendOk none).db.orderItems
      = db.orderItems ++ (cart_items db u).map (mkOrderItem (nextOrderId db))
  ∧ (checkout_confirm db s u username chatId created adminIds sendOk none).db.cart
      = db.cart.filter (fun r => !(r.user_id == u)) := by
  refine ⟨fun k => ?_, ?_, ?_, ?_⟩
  · rw [checkout_confirm_fail db s u username chatId created adminIds sendOk k hne]
    exact ⟨rfl, rfl, rfl⟩
  · rw [checkout_confirm_success db s u username chatId created adminIds sendOk hne]
  · rw [checkout_confirm_success db s u username chatId created adminIds sendOk hne]
  · rw [checkout_confirm_success db s u username chatId created adminIds sendOk hne]

/-- Witness for C1 on a one-product cart: the injected failure leaves the
database untouched and the successful commit clears the cart of user 7. -/
theorem c1_commit_atomic_witness :
    (checkout_confirm db1 s1 7 "u" 9 "t" [] okNone (some 1)).db = db1
  ∧ (checkout_confirm db1 s1 7 "u" 9 "t" [] okNone none).db.cart
      = db1.cart.filter (fun r => !(r.user_id == 7)) :=
  ⟨((c1_commit_atomic db1 s1 7 "u" 9 "t" [] okNone rfl (by decide)).1 1).1,
   (c1_commit_atomic db1 s1 7 "u" 9 "t" [] okNone rfl (by decide)).2.2.2⟩

/-- Claim C2: when the active-product cart snapshot is empty at confirm
time, the commit aborts: the database is unchanged (no Order, no
OrderItems, cart untouched), the cart-is-empty alert is surfaced, nothing
is notified, the session is unchanged, and from that session the cancel
button still terminates the checkout. -/
theorem c2_empty_cart_abort (db : DB) (s : Session) (u : Nat) (username : String)
    (chatId : Int) (created : String) (adminIds : List Int) (sendOk : Int → Bool)
    (failAt : Option Nat) (hs : s.step = some Step.confirm)
    (hempty : cart_items db u = []) :
    (checkout_confirm db s u username chatId created adminIds sendOk failAt).db = db
  ∧ (checkout_confirm db s u username chatId created adminIds sendOk failAt).session = s
  ∧ (checkout_confirm db s u username chatId created adminIds sendOk failAt).replies
      = [Reply.cartEmptyAlert]
  ∧ (checkout_confirm db s u username chatId created adminIds sendOk failAt).notified = none
  ∧ (checkoutCallback db
      (checkout_confirm db s u username chatId created adminIds sendOk failAt).session
      u username chatId created adminIds sendOk failAt "checkout:cancel").session
      = clearedSession := by
  rw [checkout_confirm_empty db s u username chatId created adminIds sendOk failAt hempty]
  refine ⟨rfl, rfl, rfl, rfl, ?_⟩
  rw [cancel_dispatch db s u username chatId created adminIds sendOk failAt hs]

/-- Witness for C2: user 8 has no cart rows in db1. -/
theorem c2_empty_cart_abort_witness :
    (checkout_confirm db1 s1 8 "u" 9 "t" [] okNone none).db = db1
  ∧ (checkout_confirm db1 s1 8 "u" 9 "t" [] okNone none).replies = [Reply.cartEmptyAlert] :=
  ⟨(c2_empty_cart_abort db1 s1 8 "u" 9 "t" [] okNone none rfl (by decide)).1,
   (c2_empty_cart_abort db1 s1 8 "u" 9 "t" [] okNone none rfl (by decide)).2.2.1⟩

/-- Fixture for C3: product 1 is active, product 2 is inactive, and user 7
has a cart row for each, so only the product 1 row is in the commit
snapshot. -/
def db3 : DB :=
  ⟨[⟨1, "A", 100, "", [], true⟩, ⟨2, "B", 50, "", [], false⟩],
   [⟨7, 1, "", 2⟩, ⟨7, 2, "", 1⟩], [], []⟩

def s3 : Session := ⟨some Step.confirm, ⟨"n", "0981234567", "Kyiv", "branch", "12", "Передоплата", "-"⟩⟩

/-- Counterexample to C3 as stated: the cart row of user 7 for the inactive
product 2 is not part of the commit snapshot, yet after the commit it is
gone from the cart store rather than unchanged. -/
theorem c3_clear_not_exact_cex :
    (⟨7, 2, "", 1⟩ : CartRow) ∈ db3.cart
  ∧ (∀ it ∈ cart_items db3 7, it.product_id ≠ 2)
  ∧ (⟨7, 2, "", 1⟩ : CartRow) ∉ (checkout_confirm db3 s3 7 "u" 9 "t" [] okNone none).db.cart := by
  decide

/-- Claim C3 amended: the commit deletes every cart row of the committing
user, the snapshotted ones and also the ones outside the snapshot (for
example entries whose product is inactive at commit time), while the order
receives items only for the snapshotted entries; cart rows of other users
are untouched. -/
theorem c3_commit_clears_all_user_rows (db : DB) (s : Session) (u : Nat) (username : String)
    (chatId : Int) (created : String) (adminIds : List Int) (sendOk : Int → Bool)
    (hne : cart_items db u ≠ []) :
    (checkout_confirm db s u username chatId created adminIds sendOk none).db.cart
      = db.cart.filter (fun r => !(r.user_id == u))
  ∧ (∀ r ∈ db.cart, r.user_id = u →
      r ∉ (checkout_confirm db s u username chatId created adminIds sendOk none).db.cart)
  ∧ (∀ r ∈ db.cart, r.user_id ≠ u →
      r ∈ (checkout_confirm db s u username chatId created adminIds sendOk none).db.cart)
  ∧ (checkout_confirm db s u username chatId created adminIds sendOk none).db.orderItems
      = db.orderItems ++ (cart_items db u).map (mkOrderItem (nextOrderId db)) := by
  rw [checkout_confirm_success db s u username chatId created adminIds sendOk hne]
  refine ⟨rfl, ?_, ?_, rfl⟩
  · intro r hr hru hmem
    have := (List.mem_filter.mp hmem).2
    simp [hru] at this
  · intro r hr hru
    exact List.mem_filter.mpr ⟨hr, by simp [hru]⟩

/-- Witness for C3 amended, on the db3 fixture with its inactive-product
row. -/
theorem c3_commit_clears_all_user_rows_witness :
    (checkout_confirm db3 s3 7 "u" 9 "t" [] okNone none).db.cart
      = db3.cart.filter (fun r => !(r.user_id == 7))
  ∧ (checkout_confirm db3 s3 7 "u" 9 "t" [] okNone none).db.orderItems
      = db3.orderItems ++ (cart_items db3 7).map (mkOrderItem (nextOrderId db3)) :=
  ⟨(c3_commit_clears_all_user_rows db3 s3 7 "u" 9 "t" [] okNone (by decide)).1,
   (c3_commit_clears_all_user_rows db3 s3 7 "u" 9 "t" [] okNone (by decide)).2.2.2⟩

/-- Claim C6: on a well-formed cart (unique keys, positive quantities), for
any sequence of increments and decrements on one (user, product, variant)
key: a decrement on a nonexistent entry is a no-op; an absent key stays
absent through any sequence; every persisted quantity stays at least 1;
while the row survives, its quantity is the initial one plus the number of
increments minus the number of decrements; and a decrement at quantity 1
deletes the row. -/
theorem c6_cart_quantity_algebra (db : DB) (u pid : Nat) (v : String) (ops : List CartOp)
    (hK : KeysNodup db) (hQ : QtyPos db) :
    (cart_qty db u pid v = none → cart_dec db u pid v = db)
  ∧ (cart_qty db u pid v = none → cart_qty (applyCartOps u pid v db ops) u pid v = none)
  ∧ QtyPos (applyCartOps u pid v db ops)
  ∧ (∀ q q2 : Int, cart_qty db u pid v = some q →
      cart_qty (applyCartOps u pid v db ops) u pid v = some q2 →
      q2 = q + (incCount ops : Int) - (decCount ops : Int))
  ∧ (cart_qty db u pid v = some 1 → cart_qty (cart_dec db u pid v) u pid v = none) := by
  refine ⟨cart_dec_noop db u pid v, qty_none_ops u pid v ops db,
    (inv_ops u pid v ops db hK hQ).2, qty_count_ops u pid v ops db, ?_⟩
  intro h
  rw [cart_qty_dec, h]
  simp

/-- Witness for C6: starting from qty 2 for the key (7, 1, empty), the
sequence inc, dec, dec ends at qty 1 = 2 + 1 - 2, with the store still
well-formed. -/
theorem c6_cart_quantity_algebra_witness :
    QtyPos (applyCartOps 7 1 "" db1 [CartOp.inc, CartOp.dec, CartOp.dec])
  ∧ (1 : Int) = 2 + (incCount [CartOp.inc, CartOp.dec, CartOp.dec] : Int)
      - (decCount [CartOp.inc, CartOp.dec, CartOp.dec] : Int) := by
  have h := c6_cart_quantity_algebra db1 7 1 "" [CartOp.inc, CartOp.dec, CartOp.dec]
    (by unfold KeysNodup; decide) (by unfold QtyPos; decide)
  exact ⟨h.2.2.1, h.2.2.2.1 2 1 (by decide) (by decide)⟩

/-- Fixture for C4: a session sitting in the payment step. -/
def s4 : Session := ⟨some Step.payment, ⟨"n", "0981234567", "Kyiv", "branch", "12", "", ""⟩⟩

/-- Counterexample to C4 as stated: the callback token pay:zzz is outside
the closed payment enum, yet in the AwaitingPayment step it is accepted,
stores the prepay label and advances the session to the comment step. -/
theorem c4_enum_only_cex :
    ("pay:zzz" ≠ "pay:cod" ∧ "pay:zzz" ≠ "pay:prepay")
  ∧ (checkoutCallback dbE s4 7 "u" 9 "t" [] okNone none "pay:zzz").session ≠ s4
  ∧ (checkoutCallback dbE s4 7 "u" 9 "t" [] okNone none "pay:zzz").session.step
      = some Step.comment
  ∧ (checkoutCallback dbE s4 7 "u" 9 "t" [] okNone none "pay:zzz").session.data.payment
      = "Передоплата" := by
  decide

theorem nptype_dispatch (db : DB) (s : Session) (u : Nat) (username : String)
    (chatId : Int) (created : String) (adminIds : List Int) (sendOk : Int → Bool)
    (failAt : Option Nat) (dataStr : String) (hs : s.step = some Step.np_type)
    (hpre : strStartsWith dataStr "np:type:" = true) (hstart : dataStr ≠ "checkout:start") :
    checkoutCallback db s u username chatId created adminIds sendOk failAt dataStr
      = ⟨db, (co_np_type s dataStr).1, [(co_np_type s dataStr).2], none⟩ := by
  unfold checkoutCallback
  rw [if_neg hstart, if_pos ⟨hs, hpre⟩]

theorem payment_dispatch (db : DB) (s : Session) (u : Nat) (username : String)
    (chatId : Int) (created : String) (adminIds : List Int) (sendOk : Int → Bool)
    (failAt : Option Nat) (dataStr : String) (hs : s.step = some Step.payment)
    (hpre : strStartsWith dataStr "pay:" = true) (hstart : dataStr ≠ "checkout:start") :
    checkoutCallback db s u username chatId created adminIds sendOk failAt dataStr
      = ⟨db, (co_payment s dataStr).1, [(co_payment s dataStr).2], none⟩ := by
  unfold checkoutCallback
  rw [if_neg hstart]
  rw [if_neg (fun h => by rw [hs] at h; exact absurd h.1 (by decide))]
  rw [if_pos ⟨hs, hpre⟩]

theorem unmatched_dispatch_np (db : DB) (s : Session) (u : Nat) (username : String)
    (chatId : Int) (created : String) (adminIds : List Int) (sendOk : Int → Bool)
    (failAt : Option Nat) (dataStr : String) (hs : s.step = some Step.np_type)
    (hpre : strStartsWith dataStr "np:type:" = false) (hstart : dataStr ≠ "checkout:start") :
    checkoutCallback db s u username chatId created adminIds sendOk failAt dataStr
      = ⟨db, s, [Reply.ignored], none⟩ := by
  unfold checkoutCallback
  rw [if_neg hstart]
  rw [if_neg (fun h => by rw [hpre] at h; exact Bool.noConfusion h.2)]
  rw [if_neg (fun h => by rw [hs] at h; exact absurd h.1 (by decide))]
  rw [if_neg (fun h => by rw [hs] at h; exact absurd h.1 (by decide))]
  rw [if_neg (fun h => by rw [hs] at h; exact absurd h.1 (by decide))]

theorem unmatched_dispatch_pay (db : DB) (s : Session) (u : Nat) (username : String)
    (chatId : Int) (created : String) (adminIds : List Int) (sendOk : Int → Bool)
    (failAt : Option Nat) (dataStr : String) (hs : s.step = some Step.payment)
    (hpre : strStartsWith dataStr "pay:" = false) (hstart : dataStr ≠ "checkout:start") :
    checkoutCallback db s u username chatId created adminIds sendOk failAt dataStr
      = ⟨db, s, [Reply.ignored], none⟩ := by
  unfold checkoutCallback
  rw [if_neg hstart]
  rw [if_neg (fun h => by rw [hs] at h; exact absurd h.1 (by decide))]
  rw [if_neg (fun h => by rw [hpre] at h; exact Bool.noConfusion h.2)]
  rw [if_neg (fun h => by rw [hs] at h; exact absurd h.1 (by decide))]
  rw [if_neg (fun h => by rw [hs] at h; exact absurd h.1 (by decide))]

/-- Claim C4 amended: in the delivery-type and payment steps the valid
tokens store the field and advance exactly one step; free-text messages are
ignored there; a callback whose data does not carry the handler data prefix
(np:type: or pay:) and is not the checkout:start restart leaves the session
and the database unchanged; but the prefix test is the whole guard: any
np:type:-prefixed data is accepted with its raw suffix stored, and any
pay:-prefixed data is accepted, mapping cod to the cash-on-delivery label
and every other suffix to the prepay label. -/
theorem c4_choice_steps (db : DB) (s : Session) (u : Nat) (username : String)
    (chatId : Int) (created : String) (adminIds : List Int) (sendOk : Int → Bool)
    (failAt : Option Nat) (dataStr text : String) :
    (s.step = some Step.np_type →
      (checkoutCallback db s u username chatId created adminIds sendOk failAt "np:type:branch").session
        = ⟨some Step.np_point, { s.data with np_type := "branch" }⟩
      ∧ (checkoutCallback db s u username chatId created adminIds sendOk failAt "np:type:locker").session
        = ⟨some Step.np_point, { s.data with np_type := "locker" }⟩
      ∧ (checkoutCallback db s u username chatId created adminIds sendOk failAt "np:type:branch").db = db)
  ∧ (s.step = some Step.payment →
      (checkoutCallback db s u username chatId created adminIds sendOk failAt "pay:cod").session
        = ⟨some Step.comment, { s.data with payment := "Накладений платіж" }⟩
      ∧ (checkoutCallback db s u username chatId created adminIds sendOk failAt "pay:prepay").session
        = ⟨some Step.comment, { s.data with payment := "Передоплата" }⟩
      ∧ (checkoutCallback db s u username chatId created adminIds sendOk failAt "pay:cod").db = db)
  ∧ ((s.step = some Step.np_type ∨ s.step = some Step.payment) →
      (checkoutMessage db s u text).1 = s)
  ∧ (s.step = some Step.np_type → strStartsWith dataStr "np:type:" = false →
      dataStr ≠ "checkout:start" →
      (checkoutCallback db s u username chatId created adminIds sendOk failAt dataStr).session = s
      ∧ (checkoutCallback db s u username chatId created adminIds sendOk failAt dataStr).db = db)
  ∧ (s.step = some Step.payment → strStartsWith dataStr "pay:" = false →
      dataStr ≠ "checkout:start" →
      (checkoutCallback db s u username chatId created adminIds sendOk failAt dataStr).session = s
      ∧ (checkoutCallback db s u username chatId created adminIds sendOk failAt dataStr).db = db)
  ∧ (s.step = some Step.np_type → strStartsWith dataStr "np:type:" = true →
      (checkoutCallback db s u username chatId created adminIds sendOk failAt dataStr).session
        = ⟨some Step.np_point, { s.data with np_type := (splitColon dataStr).getD 2 "" }⟩)
  ∧ (s.step = some Step.payment → strStartsWith dataStr "pay:" = true →
      (splitColon dataStr).getD 1 "" ≠ "cod" →
      (checkoutCallback db s u username chatId created adminIds sendOk failAt dataStr).session
        = ⟨some Step.comment, { s.data with payment := "Передоплата" }⟩) := by
  refine ⟨?_, ?_, ?_, ?_, ?_, ?_, ?_⟩
  · intro hs
    rw [nptype_dispatch db s u username chatId created adminIds sendOk failAt
          "np:type:branch" hs (by decide) (by decide)]
    rw [nptype_dispatch db s u username chatId created adminIds sendOk failAt
          "np:type:locker" hs (by decide) (by decide)]
    simp only [co_np_type]
    rw [show (splitColon "np:type:branch").getD 2 "" = "branch" from by decide]
    rw [show (splitColon "np:type:locker").getD 2 "" = "locker" from by decide]
    exact ⟨rfl, rfl, trivial⟩
  · intro hs
    rw [payment_dispatch db s u username chatId created adminIds sendOk failAt
          "pay:cod" hs (by decide) (by decide)]
    rw [payment_dispatch db s u username chatId created adminIds sendOk failAt
          "pay:prepay" hs (by decide) (by decide)]
    simp only [co_payment]
    rw [show (splitColon "pay:cod").getD 1 "" = "cod" from by decide]
    rw [show (splitColon "pay:prepay").getD 1 "" = "prepay" from by decide]
    rw [if_pos rfl, if_neg (by decide : ¬("prepay" = "cod"))]
    exact ⟨rfl, rfl, trivial⟩
  · intro hs
    rcases hs with hs | hs <;> simp only [checkoutMessage, hs]
  · intro hs hpre hstart
    rw [unmatched_dispatch_np db s u username chatId created adminIds sendOk failAt
          dataStr hs hpre hstart]
    exact ⟨rfl, rfl⟩
  · intro hs hpre hstart
    rw [unmatched_dispatch_pay db s u username chatId created adminIds sendOk failAt
          dataStr hs hpre hstart]
    exact ⟨rfl, rfl⟩
  · intro hs hpre
    rw [nptype_dispatch db s u username chatId created adminIds sendOk failAt
          dataStr hs hpre (fun heq => by rw [heq] at hpre; exact absurd hpre (by decide))]
    rfl
  · intro hs hpre hncod
    rw [payment_dispatch db s u username chatId created adminIds sendOk failAt
          dataStr hs hpre (fun heq => by rw [heq] at hpre; exact absurd hpre (by decide))]
    simp only [co_payment]
    rw [if_neg hncod]

/-- Witness for C4 amended: in the payment step the cod token is accepted
and stored, and a plain message is ignored. -/
theorem c4_choice_steps_witness :
    (checkoutCallback dbE s4 7 "u" 9 "t" [] okNone none "pay:cod").session
      = ⟨some Step.comment, ⟨"n", "0981234567", "Kyiv", "branch", "12", "Накладений платіж", ""⟩⟩
  ∧ (checkoutMessage dbE s4 7 "hello").1 = s4 := by
  have h := c4_choice_steps dbE s4 7 "u" 9 "t" [] okNone none "x" "hello"
  refine ⟨((h.2.1 rfl).1).trans (by decide), h.2.2.1 (Or.inr rfl)⟩

/-- Fixture for C5: a session sitting in the phone step. -/
def s5 : Session := ⟨some Step.phone, ⟨"n", "", "", "", "", "", ""⟩⟩

/-- Claim C5: in the AwaitingPhone step an input whose stripped residue has
at least 9 digits stores the stripped phone and advances exactly one step
to the city step, and an input with fewer than 9 digits is rejected with
the session unchanged. -/
theorem c5_phone_validation (db : DB) (s : Session) (u : Nat) (text : String)
    (hs : s.step = some Step.phone) :
    (9 ≤ digitCount (stripPhone (strTrim text)) →
      checkoutMessage db s u text
        = (⟨some Step.city, { s.data with phone := stripPhone (strTrim text) }⟩, Reply.promptCity))
  ∧ (digitCount (stripPhone (strTrim text)) < 9 →
      checkoutMessage db s u text = (s, Reply.badPhone)) := by
  simp only [checkoutMessage, hs]
  constructor
  · intro h
    simp only [co_phone]
    rw [if_neg (by omega)]
  · intro h
    simp only [co_phone]
    rw [if_pos h]

/-- Witness for C5: the 10-digit input advances to the city step and the
5-digit input 12345 is rejected in place. -/
theorem c5_phone_validation_witness :
    checkoutMessage dbE s5 7 "0981234567"
      = (⟨some Step.city, ⟨"n", "0981234567", "", "", "", "", ""⟩⟩, Reply.promptCity)
  ∧ checkoutMessage dbE s5 7 "12345" = (s5, Reply.badPhone) :=
  ⟨((c5_phone_validation dbE s5 7 "0981234567" rfl).1 (by decide)).trans (by decide),
   (c5_phone_validation dbE s5 7 "12345" rfl).2 (by decide)⟩

/-! Lemmas about admin_toggle and the cart total. -/

theorem mem_insertDescByPid (x y : ItemRow) (l : List ItemRow) :
    y ∈ insertDescByPid x l ↔ y = x ∨ y ∈ l := by
  induction l with
  | nil => simp [insertDescByPid]
  | cons a as ih =>
    simp only [insertDescByPid]
    by_cases h : a.product_id < x.product_id
    · rw [if_pos h]
      simp only [List.mem_cons]
    · rw [if_neg h]
      simp only [List.mem_cons, ih]
      tauto

theorem sortDescByPid_cons (a : ItemRow) (l : List ItemRow) :
    sortDescByPid (a :: l) = insertDescByPid a (sortDescByPid l) := rfl

theorem mem_sortDescByPid (y : ItemRow) (l : List ItemRow) :
    y ∈ sortDescByPid l ↔ y ∈ l := by
  induction l with
  | nil => simp [sortDescByPid]
  | cons a as ih =>
    rw [sortDescByPid_cons, mem_insertDescByPid]
    simp only [List.mem_cons, ih]

theorem admin_toggle_cart (db : DB) (pid : Nat) : (admin_toggle db pid).cart = db.cart := by
  unfold admin_toggle
  cases hf : findProduct db pid <;> rfl

theorem admin_toggle_found (db : DB) (pid : Nat) (row : Product)
    (hf : findProduct db pid = some row) :
    admin_toggle db pid
      = { db with products := db.products.map (fun p => if p.id == pid then { p with active := !row.active } else p) } := by
  simp only [admin_toggle, hf]

theorem findProduct_toggle_self (db : DB) (pid : Nat) (p : Product)
    (hf : findProduct db pid = some p) :
    findProduct (admin_toggle db pid) pid = some { p with active := !p.active } := by
  rw [admin_toggle_found db pid p hf]
  unfold findProduct
  rw [show ({ db with products := db.products.map (fun x => if x.id == pid then { x with active := !p.active } else x) } : DB).products = db.products.map (fun x => if x.id == pid then { x with active := !p.active } else x) from rfl]
  rw [find?_map_inv (fun x => if x.id == pid then { x with active := !p.active } else x)
      (fun x => x.id == pid)
      (fun a => by by_cases h : (a.id == pid) = true <;> simp [h]) db.products]
  rw [show db.products.find? (fun x => x.id == pid) = some p from hf]
  have hid0 := List.find?_some (show db.products.find? (fun x => x.id == pid) = some p from hf)
  have hid : p.id = pid := by simpa using hid0
  simp [hid]

theorem findProduct_toggle_ne (db : DB) (pid q : Nat) (hq : q ≠ pid) :
    findProduct (admin_toggle db pid) q = findProduct db q := by
  cases hf : findProduct db pid with
  | none =>
    simp only [admin_toggle, hf]
  | some row =>
    rw [admin_toggle_found db pid row hf]
    unfold findProduct
    rw [show ({ db with products := db.products.map (fun x => if x.id == pid then { x with active := !row.active } else x) } : DB).products = db.products.map (fun x => if x.id == pid then { x with active := !row.active } else x) from rfl]
    rw [find?_map_inv (fun x => if x.id == pid then { x with active := !row.active } else x)
        (fun x => x.id == q)
        (fun a => by by_cases h : (a.id == pid) = true <;> simp [h]) db.products]
    cases hfq : db.products.find? (fun x => x.id == q) with
    | none => rfl
    | some x =>
      have hid0 := List.find?_some hfq
      have hid : x.id = q := by simpa using hid0
      have hxp : ¬(x.id = pid) := by
        rw [hid]
        exact hq
      simp [hxp]

theorem totalRow_toggle (db : DB) (u pid : Nat) (p : Product)
    (hf : findProduct db pid = some p) (ha : p.active = true) (r : CartRow) :
    totalRow (admin_toggle db pid) u r
      = if (r.product_id == pid) = true then none else totalRow db u r := by
  by_cases hp : r.product_id = pid
  · rw [if_pos (by simp [hp])]
    unfold totalRow
    rw [hp, findProduct_toggle_self db pid p hf]
    simp [ha]
  · rw [if_neg (by simp [hp])]
    unfold totalRow
    rw [findProduct_toggle_ne db pid r.product_id hp]

theorem itemRow_toggle (db : DB) (u pid : Nat) (p : Product)
    (hf : findProduct db pid = some p) (ha : p.active = true) (r : CartRow) :
    itemRow (admin_toggle db pid) u r
      = if (r.product_id == pid) = true then none else itemRow db u r := by
  by_cases hp : r.product_id = pid
  · rw [if_pos (by simp [hp])]
    unfold itemRow
    rw [hp, findProduct_toggle_self db pid p hf]
    simp [ha]
  · rw [if_neg (by simp [hp])]
    unfold itemRow
    rw [findProduct_toggle_ne db pid r.product_id hp]

theorem itemRow_pid {db : DB} {u : Nat} {r : CartRow} {it : ItemRow}
    (h : itemRow db u r = some it) : it.product_id = r.product_id := by
  unfold itemRow at h
  by_cases hu : (r.user_id == u) = true
  · rw [if_pos hu] at h
    cases hfp : findProduct db r.product_id with
    | none =>
      simp only [hfp] at h
      exact Option.noConfusion h
    | some q =>
      simp only [hfp] at h
      by_cases hq : q.active = true
      · rw [if_pos hq] at h
        cases h
        rfl
      · rw [if_neg hq] at h
        exact Option.noConfusion h
  · rw [if_neg hu] at h
    exact Option.noConfusion h

theorem total_filterMap_eq (db : DB) (u : Nat) (l : List CartRow) :
    (l.filterMap (totalRow db u)).sum
      = ((l.filter (fun r => r.user_id == u && productActive db r.product_id)).map
          (fun r => r.qty * productPrice db r.product_id)).sum := by
  induction l with
  | nil => rfl
  | cons r rest ih =>
    by_cases hu : (r.user_id == u) = true
    · cases hfp : findProduct db r.product_id with
      | none =>
        have h1 : totalRow db u r = none := by
          simp [totalRow, hu, hfp]
        have h2 : productActive db r.product_id = false := by
          simp [productActive, hfp]
        rw [List.filterMap_cons_none h1, List.filter_cons_of_neg (by simp [h2])]
        exact ih
      | some q =>
        by_cases hq : q.active = true
        · have h1 : totalRow db u r = some (r.qty * q.price) := by
            simp [totalRow, hu, hfp, hq]
          have h2 : productActive db r.product_id = true := by
            simp [productActive, hfp, hq]
          have h3 : productPrice db r.product_id = q.price := by
            simp [productPrice, hfp]
          rw [List.filterMap_cons_some h1, List.filter_cons_of_pos (by simp [hu, h2])]
          simp only [List.map_cons, List.sum_cons, h3, ih]
        · have h1 : totalRow db u r = none := by
            simp [totalRow, hu, hfp, hq]
          have h2 : productActive db r.product_id = false := by
            simp [productActive, hfp]
            simpa using hq
          rw [List.filterMap_cons_none h1, List.filter_cons_of_neg (by simp [h2])]
          exact ih
    · have h1 : totalRow db u r = none := by
        simp [totalRow, hu]
      rw [List.filterMap_cons_none h1, List.filter_cons_of_neg (by simp [hu])]
      exact ih

theorem total_toggle_aux (db : DB) (u pid : Nat) (p : Product)
    (hf : findProduct db pid = some p) (ha : p.active = true) (l : List CartRow) :
    (l.filterMap (totalRow (admin_toggle db pid) u)).sum
      = (l.filterMap (totalRow db u)).sum
        - ((l.filter (fun r => r.user_id == u && r.product_id == pid)).map
            (fun r => r.qty * p.price)).sum := by
  induction l with
  | nil => simp
  | cons r rest ih =>
    by_cases hp : (r.product_id == pid) = true
    · have htog : totalRow (admin_toggle db pid) u r = none := by
        rw [totalRow_toggle db u pid p hf ha r, if_pos hp]
      by_cases hu : (r.user_id == u) = true
      · have hp' : r.product_id = pid := by simpa using hp
        have hrq : totalRow db u r = some (r.qty * p.price) := by
          simp [totalRow, hu, hp', hf, ha]
        rw [List.filterMap_cons_none htog, List.filterMap_cons_some hrq,
            List.filter_cons_of_pos (by simp [hu, hp])]
        simp only [List.map_cons, List.sum_cons]
        rw [ih]
        ring
      · have hrq : totalRow db u r = none := by
          simp [totalRow, hu]
        rw [List.filterMap_cons_none htog, List.filterMap_cons_none hrq,
            List.filter_cons_of_neg (by simp [hu])]
        exact ih
    · have heq : totalRow (admin_toggle db pid) u r = totalRow db u r := by
        rw [totalRow_toggle db u pid p hf ha r, if_neg hp]
      cases hv : totalRow db u r with
      | none =>
        rw [List.filterMap_cons_none (heq.trans hv), List.filterMap_cons_none hv,
            List.filter_cons_of_neg (by simp [hp])]
        exact ih
      | some x =>
        rw [List.filterMap_cons_some (heq.trans hv), List.filterMap_cons_some hv,
            List.filter_cons_of_neg (by simp [hp])]
        simp only [List.sum_cons]
        rw [ih]
        ring

theorem pairwise_id_unique {l : List Product} (hnd : l.Pairwise (fun a b => a.id ≠ b.id))
    {x y : Product} (hx : x ∈ l) (hy : y ∈ l) (hxy : x.id = y.id) : x = y := by
  induction l with
  | nil => cases hx
  | cons a as ih =>
    rw [List.pairwise_cons] at hnd
    rcases List.mem_cons.mp hx with hxa | hxm
    · rcases List.mem_cons.mp hy with hya | hym
      · rw [hxa, hya]
      · exfalso
        apply hnd.1 y hym
        subst hxa
        exact hxy
    · rcases List.mem_cons.mp hy with hya | hym
      · exfalso
        apply hnd.1 x hxm
        subst hya
        exact hxy.symm
      · exact ih hnd.2 hxm hym

theorem admin_toggle_twice (db : DB) (pid : Nat) (hnd : ProductsNodup db) :
    admin_toggle (admin_toggle db pid) pid = db := by
  cases hf : findProduct db pid with
  | none =>
    have h0 : admin_toggle db pid = db := by simp only [admin_toggle, hf]
    rw [h0]
    exact h0
  | some p =>
    have hpmem : p ∈ db.products := List.mem_of_find?_eq_some hf
    have h2 := findProduct_toggle_self db pid p hf
    rw [admin_toggle_found _ _ _ h2]
    simp only [admin_toggle_found db pid p hf]
    simp only [List.map_map]
    rw [map_id_of_mem db.products _ (fun x hx => by
      by_cases hid : (x.id == pid) = true
      · have hxid : x.id = pid := by simpa using hid
        have hpid0 := List.find?_some (show db.products.find? (fun x => x.id == pid) = some p from hf)
        have hpid : p.id = pid := by simpa using hpid0
        have hxp : x = p := pairwise_id_unique hnd hx hpmem (hxid.trans hpid.symm)
        subst hxp
        simp [Function.comp, hid, Bool.not_not]
      · simp [Function.comp, hid])]

/-- Claim C7: the cart total of a user is the sum of qty times unit price
over exactly the cart entries of that user whose product is currently
active; toggling a product off keeps every cart row, removes exactly the
contribution of that product from the total and removes its rows from the
listing; toggling it back restores the database and hence the total. -/
theorem c7_total_active (db : DB) (u pid : Nat) (p : Product)
    (hnd : ProductsNodup db) (hf : findProduct db pid = some p) (ha : p.active = true) :
    cart_total db u
      = ((db.cart.filter (fun r => r.user_id == u && productActive db r.product_id)).map
          (fun r => r.qty * productPrice db r.product_id)).sum
  ∧ (admin_toggle db pid).cart = db.cart
  ∧ cart_total (admin_toggle db pid) u = cart_total db u - pidContrib db u pid p.price
  ∧ (∀ it ∈ cart_items (admin_toggle db pid) u, it.product_id ≠ pid)
  ∧ admin_toggle (admin_toggle db pid) pid = db
  ∧ cart_total (admin_toggle (admin_toggle db pid) pid) u = cart_total db u := by
  refine ⟨total_filterMap_eq db u db.cart, admin_toggle_cart db pid, ?_, ?_, admin_toggle_twice db pid hnd, ?_⟩
  · show ((admin_toggle db pid).cart.filterMap (totalRow (admin_toggle db pid) u)).sum = _
    rw [admin_toggle_cart db pid]
    exact total_toggle_aux db u pid p hf ha db.cart
  · intro it hit
    have hmem : it ∈ (admin_toggle db pid).cart.filterMap (itemRow (admin_toggle db pid) u) := by
      rw [← mem_sortDescByPid]
      exact hit
    rw [admin_toggle_cart db pid] at hmem
    obtain ⟨r, hr, hrit⟩ := List.mem_filterMap.mp hmem
    rw [itemRow_toggle db u pid p hf ha r] at hrit
    by_cases hp : (r.product_id == pid) = true
    · rw [if_pos hp] at hrit
      cases hrit
    · rw [if_neg hp] at hrit
      rw [itemRow_pid hrit]
      simpa using hp
  · rw [admin_toggle_twice db pid hnd]

/-- Fixture for C7: two active products, user 7 holding both. -/
def db7 : DB :=
  ⟨[⟨1, "A", 100, "", [], true⟩, ⟨2, "B", 50, "", ["M"], true⟩],
   [⟨7, 1, "", 2⟩, ⟨7, 2, "M", 1⟩], [], []⟩

/-- Witness for C7: deactivating product 2 removes exactly its
contribution from the total of user 7 and the double toggle restores the
database. -/
theorem c7_total_active_witness :
    cart_total (admin_toggle db7 2) 7 = cart_total db7 7 - pidContrib db7 7 2 50
  ∧ admin_toggle (admin_toggle db7 2) 2 = db7 := by
  have h := c7_total_active db7 7 2 ⟨2, "B", 50, "", ["M"], true⟩
    (by unfold ProductsNodup; decide) (by decide) rfl
  exact ⟨h.2.2.1, h.2.2.2.2.1⟩

/-- Fixture for C8: one product, inactive. -/
def db8 : DB := ⟨[⟨1, "A", 100, "", [], false⟩], [], [], []⟩

/-- Counterexample to C8 as stated: the plain add on an inactive product is
rejected at write time with the not-found alert and writes no cart entry,
so after the product is reactivated the cart is still empty instead of
showing the pending entry the claim predicts. -/
theorem c8_write_time_check_cex :
    (cart_add db8 7 1).1 = db8
  ∧ (cart_add db8 7 1).2 = Reply.notFound
  ∧ cart_total (admin_toggle (cart_add db8 7 1).1 1) 7 = 0
  ∧ cart_items (admin_toggle (cart_add db8 7 1).1 1) 7 = [] := by
  decide

theorem cart_dec_products (db : DB) (u pid : Nat) (v : String) (ps : List Product) :
    (cart_dec { db with products := ps } u pid v).cart = (cart_dec db u pid v).cart := by
  unfold cart_dec
  rw [show ({ db with products := ps } : DB).cart = db.cart from rfl]
  cases h : db.cart.find? (keyMatch u pid v) with
  | none => rfl
  | some row =>
    by_cases hle : row.qty ≤ 1
    · simp only [hle, if_true, reduceIte]
    · simp [hle]

theorem cart_upsert_products (db : DB) (u pid : Nat) (v : String) (ps : List Product) :
    (cart_upsert { db with products := ps } u pid v).cart = (cart_upsert db u pid v).cart := by
  unfold cart_upsert
  rw [show ({ db with products := ps } : DB).cart = db.cart from rfl]
  by_cases h : db.cart.any (keyMatch u pid v) = true
  · simp [h]
  · simp [h]

/-- Claim C8 amended: the plain add checks the product at write time and
rejects a nonexistent or inactive product with a not-found alert, writing
nothing; the other cart writes (add-with-variant, increment, decrement,
remove, and the shared upsert) run without consulting the products table,
so their effect on the cart is independent of the product rows and the
product check is deferred to the read-time joins. -/
theorem c8_write_paths (db : DB) (u pid : Nat) (v : String) (ps : List Product) :
    (db.products.find? (fun p => p.id == pid && p.active) = none →
      cart_add db u pid = (db, Reply.notFound))
  ∧ (cart_add_variant db u pid v).1 = cart_upsert db u pid v
  ∧ (cart_inc { db with products := ps } u pid v).cart = (cart_inc db u pid v).cart
  ∧ (cart_dec { db with products := ps } u pid v).cart = (cart_dec db u pid v).cart
  ∧ (cart_del { db with products := ps } u pid v).cart = (cart_del db u pid v).cart
  ∧ (cart_upsert { db with products := ps } u pid v).cart = (cart_upsert db u pid v).cart := by
  refine ⟨?_, rfl, rfl, cart_dec_products db u pid v ps, rfl, cart_upsert_products db u pid v ps⟩
  intro h
  unfold cart_add
  rw [h]

/-- Witness for C8 amended: in db8 the product is inactive, so the plain
add is rejected, while the variant add writes unconditionally. -/
theorem c8_write_paths_witness :
    cart_add db8 7 1 = (db8, Reply.notFound)
  ∧ (cart_add_variant db8 7 1 "M").1 = cart_upsert db8 7 1 "M" :=
  ⟨(c8_write_paths db8 7 1 "M" []).1 (by decide),
   (c8_write_paths db8 7 1 "M" []).2.1⟩

/-- Fixture for C9: one product, referenced by one cart row of user 7. -/
def db9 : DB := ⟨[⟨1, "A", 100, "", [], true⟩], [⟨7, 1, "", 1⟩], [], []⟩

/-- Claim C9, evaluated at the failing input: admin:del removes the product
row, but because db_execute runs on a fresh connection where SQLite leaves
foreign key enforcement off, the declared ON DELETE CASCADE does not run
and the cart row referencing product 1 survives; with enforcement on, the
same delete would clear it. -/
theorem c9_delete_no_cascade :
    (admin_del db9 1).products = []
  ∧ (⟨7, 1, "", 1⟩ : CartRow) ∈ (admin_del db9 1).cart
  ∧ (deleteProduct db9 1 true).cart = [] := by
  decide

/-- Claim C10: notification of a committed order walks the configured admin
identities in order, skipping zero identities, and stops at the first that
accepts; when every identity is zero or fails, the originating chat is
notified instead; and the commit result, the replies shown to the user and
the persisted database are the same whatever the send outcomes are, with
the order-done reply always surfaced. -/
theorem c10_notify_dispatch (db : DB) (s : Session) (u : Nat) (username : String)
    (chatId : Int) (created : String) (adminIds : List Int) (sendOk sendOk2 : Int → Bool)
    (hne : cart_items db u ≠ []) :
    ((∀ a ∈ adminIds, a = 0 ∨ sendOk a = false) →
      notifyResult adminIds sendOk chatId = (if sendOk chatId then some chatId else none))
  ∧ (∀ l1 l2 (a : Int), adminIds = l1 ++ a :: l2 →
      (∀ b ∈ l1, b = 0 ∨ sendOk b = false) → a ≠ 0 → sendOk a = true →
      notifyResult adminIds sendOk chatId = some a)
  ∧ (checkout_confirm db s u username chatId created adminIds sendOk none).db
      = (checkout_confirm db s u username chatId created adminIds sendOk2 none).db
  ∧ (checkout_confirm db s u username chatId created adminIds sendOk none).replies
      = (checkout_confirm db s u username chatId created adminIds sendOk2 none).replies
  ∧ (checkout_confirm db s u username chatId created adminIds sendOk none).replies
      = [Reply.orderDone (nextOrderId db)]
  ∧ (checkout_confirm db s u username chatId created adminIds sendOk none).notified
      = notifyResult adminIds sendOk chatId := by
  refine ⟨?_, ?_, ?_, ?_, ?_, ?_⟩
  · intro hall
    unfold notifyResult
    rw [List.find?_eq_none.mpr (fun x hx hpx => by
      rcases hall x hx with h0 | h0
      · rw [h0] at hpx
        simp at hpx
      · rw [h0] at hpx
        simp at hpx)]
  · intro l1 l2 a hsplit hfail ha0 haok
    unfold notifyResult
    subst hsplit
    rw [find?_append_first _ l1 l2 a (fun b hb => by
      rcases hfail b hb with h0 | h0
      · simp [h0]
      · simp [h0]) (by simp [ha0, haok])]
  · rw [checkout_confirm_success db s u username chatId created adminIds sendOk hne,
        checkout_confirm_success db s u username chatId created adminIds sendOk2 hne]
  · rw [checkout_confirm_success db s u username chatId created adminIds sendOk hne,
        checkout_confirm_success db s u username chatId created adminIds sendOk2 hne]
  · rw [checkout_confirm_success db s u username chatId created adminIds sendOk hne]
  · rw [checkout_confirm_success db s u username chatId created adminIds sendOk hne]

/-- Witness for C10: with admin ids 0, 5, 7 and only 5 accepting, the
notification stops at 5; with ids 0 and 7 and nobody accepting, the
fallback goes to the originating chat 9 and also fails there, logged
only, while the user still sees the order-done reply. -/
theorem c10_notify_dispatch_witness :
    notifyResult [0, 7] okOnly5 9 = none
  ∧ notifyResult [0, 5, 7] okOnly5 9 = some 5
  ∧ (checkout_confirm db1 s1 7 "u" 9 "t" [0, 5, 7] okOnly5 none).replies
      = [Reply.orderDone (nextOrderId db1)] := by
  have h1 := c10_notify_dispatch db1 s1 7 "u" 9 "t" [0, 7] okOnly5 okOnly5 (by decide)
  have h2 := c10_notify_dispatch db1 s1 7 "u" 9 "t" [0, 5, 7] okOnly5 okOnly5 (by decide)
  refine ⟨(h1.1 (by decide)).trans (by decide),
    h2.2.1 [0] [7] 5 rfl (by decide) (by decide) (by decide),
    h2.2.2.2.2.1⟩

end Bot
